import Mathlib

/-
Verification of the jaffle-shop benchmarking harness
(`jaffle_shop_pipeline.py`) against its specification.

The harness compares a "naive" (per-item) against an "optimized" (per-page)
ingestion pipeline.  We shallow-embed the harness code in Lean:

* pure values (pipeline configurations, dataset names) become plain
  structures and functions;
* the stateful, exception-throwing parts (`time.time()`, `os.environ`
  mutation, `print`, Python division, calls into the external dlt runtime)
  become a state-passing monad `PyM` over a state carrying the clock, the
  environment-variable table and an observable event log;
* the external dlt Pipeline Runtime and the external `client.paginate`
  generator are not part of this repository; they are modelled from the
  specification's description of the external interfaces (durations,
  outcomes and pagination semantics are parameters).
-/

set_option autoImplicit false

namespace JaffleShop

/-! ## Pagination (external paginator, with the source's configuration)

`client.paginate` comes from the dlt library.  Modelled from the spec:
the paginator starts at `base_page = 1`, requests successive pages, stops
at the first empty page (`stop_after_empty_page = True`; an empty page
signals end-of-data and is not yielded as a data page) and performs at
most `maximum_page` fetches (the source configures `maximum_page = 5`).
`paginateFrom fetch page fuel` returns the yielded pages together with the
number of fetches performed. -/

def paginateFrom {α : Type} (fetch : ℕ → List α) : ℕ → ℕ → List (List α) × ℕ
  | _, 0 => ([], 0)
  | page, fuel + 1 =>
    match fetch page with
    | [] => ([], 1)
    | x :: xs =>
      let r := paginateFrom fetch (page + 1) fuel
      ((x :: xs) :: r.1, r.2 + 1)

/-- Pages yielded by `client.paginate` with `base_page = 1` and bound `bound`. -/
def paginate {α : Type} (fetch : ℕ → List α) (bound : ℕ) : List (List α) :=
  (paginateFrom fetch 1 bound).1

/-- Number of page fetches performed by `client.paginate`. -/
def fetchCount {α : Type} (fetch : ℕ → List α) (bound : ℕ) : ℕ :=
  (paginateFrom fetch 1 bound).2

/-! ## Resource definitions (source lines 41-57 and 96-110)

The naive resources iterate over each page and yield the individual items;
the optimized resources yield whole pages.  `orders` and `products` are
textually identical to `customers` in the source, so `customers` is the
representative resource for each granularity. -/

namespace Naive

/-- Naive `customers` resource: `for page in client.paginate: for item in page: yield item`. -/
def customers {α : Type} (fetch : ℕ → List α) : List α :=
  (paginate fetch 5).flatten

end Naive

namespace Optimized

/-- Optimized `customers` resource: `for page in client.paginate: yield page`. -/
def customers {α : Type} (fetch : ℕ → List α) : List (List α) :=
  paginate fetch 5

end Optimized

/-! ## Pipeline configuration (source lines 59-68, 117-139) -/

/-- The argument record passed to `dlt.pipeline(...)`. -/
structure Pipeline where
  pipeline_name : String
  destination : String
  dataset_name : String
  dev_mode : Bool
deriving DecidableEq

/-- The `pipeline.run_settings` dictionary assigned in the optimized variant
(source lines 127-137). -/
structure RunSettings where
  execution_parallelized : Bool
  extract_buffer_max_items : ℕ
  normalize_file_rotation_size_mb : ℕ
deriving DecidableEq

/-- Pure part of `create_naive_pipeline` (source lines 59-66): the pipeline
configuration built from a fresh UUID string (`str(uuid.uuid4())`);
the source keeps only the first 8 characters. -/
def create_naive_pipeline (uuid4 : String) : Pipeline :=
  let pipeline_uuid := uuid4.take 8
  { pipeline_name := "jaffle_benchmark_" ++ pipeline_uuid
    destination := "duckdb"
    dataset_name := "jaffle_naive_" ++ pipeline_uuid
    dev_mode := false }

/-- The `run_settings` value assigned in `create_optimized_pipeline`
(source lines 127-137): `parallelized` is `False` in the source. -/
def optimized_run_settings : RunSettings :=
  { execution_parallelized := false
    extract_buffer_max_items := 10000
    normalize_file_rotation_size_mb := 100 }

/-- Pure part of `create_optimized_pipeline` (source lines 117-139). -/
def create_optimized_pipeline (uuid4 : String) : Pipeline × RunSettings :=
  let pipeline_uuid := uuid4.take 8
  ({ pipeline_name := "jaffle_benchmark_" ++ pipeline_uuid
     destination := "duckdb"
     dataset_name := "jaffle_optimized_" ++ pipeline_uuid
     dev_mode := false }, optimized_run_settings)

/-! ## Process state: clock, environment, observable events -/

/-- Which of the two benchmark pipelines is being run. -/
inductive Variant
  | naive | optimized
deriving DecidableEq

/-- Snapshot of the three worker environment variables, as observed by the
external runtime when a run starts. -/
structure WorkerEnv where
  extractWorkers : Option String
  normalizeWorkers : Option String
  loadWorkers : Option String
deriving DecidableEq

/-- Opaque load summary returned by the external runtime (`load_info`). -/
structure LoadInfo where
  summary : ℕ
deriving DecidableEq

/-- Console / effect events observable during an execution. -/
inductive Msg
  | text (s : String)
  | completedIn (funcName : String) (seconds : ℚ)
  | naiveSeconds (t : ℚ)
  | optimizedSeconds (t : ℚ)
  | improvementPct (p : ℚ)
  | currentThread (name : String)
  | activeThreadCount (n : ℕ)
deriving DecidableEq

/-- Events recorded in the trace: environment mutation, runtime calls
(with the worker environment visible at call time), run completions and
console output. -/
inductive Ev
  | envSet (name val : String)
  | runtimeCall (v : Variant) (w : WorkerEnv)
  | runEnd (v : Variant)
  | out (m : Msg)
deriving DecidableEq

/-- `os.environ` lookup on an association list (newest binding first). -/
def envGet : List (String × String) → String → Option String
  | [], _ => none
  | (n, v) :: rest, k => if n = k then some v else envGet rest k

/-- The worker environment visible to the runtime: the values of
`EXTRACT__WORKERS`, `NORMALIZE__WORKERS` and `LOAD__WORKERS`. -/
def workersOf (env : List (String × String)) : WorkerEnv :=
  ⟨envGet env "EXTRACT__WORKERS", envGet env "NORMALIZE__WORKERS",
   envGet env "LOAD__WORKERS"⟩

/-- Process state: the wall clock read by `time.time()`, the environment
variable table and the observable event log. -/
structure St where
  now : ℚ
  env : List (String × String)
  log : List Ev

/-- Initial process state. -/
def st0 : St := { now := 0, env := [], log := [] }

/-- Python exceptions relevant to the harness. -/
inductive PyErr
  | zeroDivisionError
  | runtimeError (v : Variant)
deriving DecidableEq

/-- A Python computation: state in, `Except` result (an uncaught exception
aborts the rest of the statement sequence) and state out. -/
def PyM (α : Type) : Type := St → Except PyErr α × St

def pyPure {α : Type} (a : α) : PyM α := fun s => (.ok a, s)

def pyBind {α β : Type} (m : PyM α) (f : α → PyM β) : PyM β := fun s =>
  match m s with
  | (.ok a, s1) => f a s1
  | (.error e, s1) => (.error e, s1)

instance instMonadPyM : Monad PyM where
  pure := pyPure
  bind := pyBind

/-- `time.time()`. -/
def timeNow : PyM ℚ := fun s => (.ok s.now, s)

/-- `os.environ[name] = val` (recorded in the trace; never undone). -/
def osEnvironSet (name val : String) : PyM Unit := fun s =>
  (.ok (), { s with env := (name, val) :: s.env,
                    log := s.log ++ [Ev.envSet name val] })

/-- `print(...)`. -/
def printLn (m : Msg) : PyM Unit := fun s =>
  (.ok (), { s with log := s.log ++ [Ev.out m] })

/-- Lift a possibly-raising pure computation into `PyM`. -/
def liftE {α : Type} (e : Except PyErr α) : PyM α := fun s => (e, s)

/-- Python division: raises `ZeroDivisionError` on a zero divisor,
otherwise returns the exact quotient. -/
def pyDiv (a b : ℚ) : Except PyErr ℚ :=
  if b = 0 then .error .zeroDivisionError else .ok (a / b)

/-! ## The external Pipeline Runtime

Modelled from the spec: `pipeline.run(...)` hands off to the external dlt
runtime, blocks for the duration of the run and either returns a load
summary or raises.  Its duration and outcome are parameters of the model
(`RuntimeBehavior`); the call is recorded in the trace together with the
worker environment it observes, and a completion event is recorded only
when the run succeeds. -/

/-- Duration and outcome of one external runtime invocation. -/
structure RuntimeBehavior where
  duration : ℚ
  outcome : Except PyErr LoadInfo

/-- `pipeline.run(...)`: the external runtime call. -/
def pipelineRun (v : Variant) (beh : RuntimeBehavior) : PyM LoadInfo := fun s =>
  let s1 : St := { s with now := s.now + beh.duration,
                          log := s.log ++ [Ev.runtimeCall v (workersOf s.env)] }
  match beh.outcome with
  | .ok li => (.ok li, { s1 with log := s1.log ++ [Ev.runEnd v] })
  | .error e => (.error e, s1)

/-! ## Monadic constructors and run functions (source lines 15-23, 70-74, 78-145) -/

/-- `create_naive_pipeline()` as executed: pure configuration construction
taking `cost` wall-clock time (no environment mutation, no output). -/
def create_naive_pipelineM (uuid4 : String) (cost : ℚ) : PyM Pipeline := fun s =>
  (.ok (create_naive_pipeline uuid4), { s with now := s.now + cost })

/-- `create_optimized_pipeline()` as executed: first sets the three worker
environment variables (source lines 80-82), then builds the configuration,
taking `cost` wall-clock time. -/
def create_optimized_pipelineM (uuid4 : String) (cost : ℚ) :
    PyM (Pipeline × RunSettings) := do
  osEnvironSet "EXTRACT__WORKERS" "2"
  osEnvironSet "NORMALIZE__WORKERS" "2"
  osEnvironSet "LOAD__WORKERS" "2"
  fun s => (.ok (create_optimized_pipeline uuid4), { s with now := s.now + cost })

/-- The `time_execution` decorator (source lines 15-23): reads the clock,
runs the wrapped function, reads the clock again, prints the completion
message and returns the pair `(result, execution_time)`. -/
def time_execution {α : Type} (funcName : String) (func : PyM α) : PyM (α × ℚ) := do
  let start_time ← timeNow
  let result ← func
  let end_time ← timeNow
  let execution_time := end_time - start_time
  printLn (Msg.completedIn funcName execution_time)
  pure (result, execution_time)

/-- `run_naive_pipeline` (source lines 70-74), including its
`@time_execution` decoration: the timed region contains both the
configuration construction and the runtime call. -/
def run_naive_pipeline (uuid4 : String) (createCost : ℚ) (beh : RuntimeBehavior) :
    PyM (LoadInfo × ℚ) :=
  time_execution "run_naive_pipeline" (do
    let _pipeline ← create_naive_pipelineM uuid4 createCost
    pipelineRun Variant.naive beh)

/-- `run_optimized_pipeline` (source lines 141-145), including its
`@time_execution` decoration. -/
def run_optimized_pipeline (uuid4 : String) (createCost : ℚ) (beh : RuntimeBehavior) :
    PyM (LoadInfo × ℚ) :=
  time_execution "run_optimized_pipeline" (do
    let _src ← create_optimized_pipelineM uuid4 createCost
    pipelineRun Variant.optimized beh)

/-- Source line 176, printed verbatim by `main`. -/
def parallelismLine : String :=
  "2. Parallelism: Setting parallelized=True and configuring worker counts"

/-- Boolean substring check on character lists (used to read the printed
optimization summary). -/
def strHasSub (needle : List Char) : List Char → Bool
  | [] => needle.isEmpty
  | c :: rest => needle.isPrefixOf (c :: rest) || strHasSub needle rest

/-- `main()` (source lines 149-180).  The UUID draws, construction costs,
runtime behaviors and thread information are parameters of the model. -/
def main (uuidN uuidO : String) (cN cO : ℚ) (nBeh oBeh : RuntimeBehavior)
    (threadName : String) (activeThreads : ℕ) : PyM Unit := do
  printLn (Msg.text "Running naive pipeline...")
  let nr ← run_naive_pipeline uuidN cN nBeh
  printLn (Msg.text "\nRunning optimized pipeline...")
  let orr ← run_optimized_pipeline uuidO cO oBeh
  let naive_time := nr.2
  let optimized_time := orr.2
  let q ← liftE (pyDiv (naive_time - optimized_time) naive_time)
  let improvement := q * 100
  printLn (Msg.text "\n========== PERFORMANCE RESULTS ==========")
  printLn (Msg.naiveSeconds naive_time)
  printLn (Msg.optimizedSeconds optimized_time)
  printLn (Msg.improvementPct improvement)
  printLn (Msg.text "\n========== THREAD INFORMATION ==========")
  printLn (Msg.currentThread threadName)
  printLn (Msg.activeThreadCount activeThreads)
  printLn (Msg.text "\n========== OPTIMIZATION DETAILS ==========")
  printLn (Msg.text "Key optimizations applied:")
  printLn (Msg.text "1. Chunking: Yielding entire pages instead of individual items")
  printLn (Msg.text parallelismLine)
  printLn (Msg.text "3. Buffer Control: Increasing buffer_max_items to 10000")
  printLn (Msg.text "4. File Rotation: Setting file_rotation_size_mb to 100")
  printLn (Msg.text "5. Worker Tuning: Setting EXTRACT__WORKERS, NORMALIZE__WORKERS, and LOAD__WORKERS to 2")
  printLn (Msg.text "6. Source Grouping: Grouping resources into a source for better orchestration")

/-! ## Concrete fixtures used by witnesses -/

/-- A page stream with two non-empty pages followed by empty pages. -/
def sampleFetchA : ℕ → List ℕ := fun i =>
  if i = 1 then [10] else if i = 2 then [20, 30] else []

/-- A page stream with no empty page. -/
def sampleFetchB : ℕ → List ℕ := fun i => [i]

/-- The event trace appended by a successful `main` execution, given the
worker environment `w0` observed by the naive run, the two elapsed times
`nt` and `ot`, and the thread information. -/
def mainOkLog (w0 : WorkerEnv) (nt ot : ℚ) (tn : String) (ac : ℕ) : List Ev :=
  [Ev.out (Msg.text "Running naive pipeline..."),
   Ev.runtimeCall .naive w0,
   Ev.runEnd .naive,
   Ev.out (Msg.completedIn "run_naive_pipeline" nt),
   Ev.out (Msg.text "\nRunning optimized pipeline..."),
   Ev.envSet "EXTRACT__WORKERS" "2",
   Ev.envSet "NORMALIZE__WORKERS" "2",
   Ev.envSet "LOAD__WORKERS" "2",
   Ev.runtimeCall .optimized ⟨some "2", some "2", some "2"⟩,
   Ev.runEnd .optimized,
   Ev.out (Msg.completedIn "run_optimized_pipeline" ot),
   Ev.out (Msg.text "\n========== PERFORMANCE RESULTS =========="),
   Ev.out (Msg.naiveSeconds nt),
   Ev.out (Msg.optimizedSeconds ot),
   Ev.out (Msg.improvementPct ((nt - ot) / nt * 100)),
   Ev.out (Msg.text "\n========== THREAD INFORMATION =========="),
   Ev.out (Msg.currentThread tn),
   Ev.out (Msg.activeThreadCount ac),
   Ev.out (Msg.text "\n========== OPTIMIZATION DETAILS =========="),
   Ev.out (Msg.text "Key optimizations applied:"),
   Ev.out (Msg.text "1. Chunking: Yielding entire pages instead of individual items"),
   Ev.out (Msg.text parallelismLine),
   Ev.out (Msg.text "3. Buffer Control: Increasing buffer_max_items to 10000"),
   Ev.out (Msg.text "4. File Rotation: Setting file_rotation_size_mb to 100"),
   Ev.out (Msg.text "5. Worker Tuning: Setting EXTRACT__WORKERS, NORMALIZE__WORKERS, and LOAD__WORKERS to 2"),
   Ev.out (Msg.text "6. Source Grouping: Grouping resources into a source for better orchestration")]

/-! ## Pagination lemmas -/

theorem paginateFrom_yield {α : Type} (fetch : ℕ → List α) :
    ∀ N fuel start : ℕ, N ≤ fuel →
      (∀ i, start ≤ i → i < start + N → fetch i ≠ []) →
      (N < fuel → fetch (start + N) = []) →
      (paginateFrom fetch start fuel).1 = (List.range N).map (fun k => fetch (start + k)) := by
  intro N
  induction N with
  | zero =>
    intro fuel start _ _ hstop
    cases fuel with
    | zero => simp [paginateFrom]
    | succ m =>
      have h0 : fetch start = [] := by simpa using hstop (Nat.succ_pos m)
      simp [paginateFrom, h0]
  | succ n ih =>
    intro fuel start hle hne hstop
    cases fuel with
    | zero => omega
    | succ m =>
      have h0 : fetch start ≠ [] := hne start le_rfl (by omega)
      cases hfs : fetch start with
      | nil => exact absurd hfs h0
      | cons x xs =>
        have ihr := ih m (start + 1) (by omega)
          (fun i h1 h2 => hne i (by omega) (by omega))
          (fun hlt => by
            have h2 := hstop (by omega)
            have e : start + 1 + n = start + (n + 1) := by omega
            rw [e]; exact h2)
        have harg : ∀ k : ℕ, start + 1 + k = start + (k + 1) := fun k => by omega
        simp [paginateFrom, hfs, ihr, List.range_succ_eq_map, List.map_map,
              Function.comp, harg]

theorem paginateFrom_count_le {α : Type} (fetch : ℕ → List α) :
    ∀ fuel start : ℕ, (paginateFrom fetch start fuel).2 ≤ fuel := by
  intro fuel
  induction fuel with
  | zero => intro start; simp [paginateFrom]
  | succ m ih =>
    intro start
    cases hfs : fetch start with
    | nil => simp [paginateFrom, hfs]
    | cons x xs =>
      have hm := ih (start + 1)
      simp only [paginateFrom, hfs]
      omega

theorem paginateFrom_count_all {α : Type} (fetch : ℕ → List α) :
    ∀ fuel start : ℕ, (∀ i, start ≤ i → fetch i ≠ []) →
      (paginateFrom fetch start fuel).2 = fuel := by
  intro fuel
  induction fuel with
  | zero => intro start _; simp [paginateFrom]
  | succ m ih =>
    intro start h
    cases hfs : fetch start with
    | nil => exact absurd hfs (h start le_rfl)
    | cons x xs =>
      simp [paginateFrom, hfs, ih (start + 1) (fun i hi => h i (by omega))]

/-- C3: for a page stream with `N` non-empty pages (`N ≤ 5`, no empty page
before the `N`-th), the naive item-granularity resource yields the
concatenation of all page records in order, the optimized page-granularity
resource yields exactly the `N` pages in order, and flattening the
page-granularity output equals the item-granularity output. -/
theorem C3_granularity_refinement {α : Type} (fetch : ℕ → List α) (N : ℕ)
    (hN : N ≤ 5)
    (hne : ∀ i, 1 ≤ i → i ≤ N → fetch i ≠ [])
    (hstop : N < 5 → fetch (N + 1) = []) :
    Optimized.customers fetch = (List.range N).map (fun k => fetch (k + 1)) ∧
    Naive.customers fetch = ((List.range N).map (fun k => fetch (k + 1))).flatten ∧
    (Optimized.customers fetch).flatten = Naive.customers fetch := by
  have hmain := paginateFrom_yield fetch N 5 1 hN
    (fun i h1 h2 => hne i h1 (by omega))
    (fun hlt => by
      have h2 := hstop hlt
      have e : 1 + N = N + 1 := by omega
      rw [e]; exact h2)
  have harg : ∀ k : ℕ, 1 + k = k + 1 := fun k => by omega
  refine ⟨?_, ?_, rfl⟩
  · simpa [Optimized.customers, paginate, harg] using hmain
  · have : paginate fetch 5 = (List.range N).map (fun k => fetch (k + 1)) := by
      simpa [paginate, harg] using hmain
    simp [Naive.customers, this]

/-- C3 witness: the theorem applied to a concrete two-page stream. -/
theorem C3_witness :
    Optimized.customers sampleFetchA = [[10], [20, 30]] ∧
    Naive.customers sampleFetchA = [10, 20, 30] := by
  have h := C3_granularity_refinement sampleFetchA 2 (by omega)
    (fun i h1 h2 => by
      have : i = 1 ∨ i = 2 := by omega
      rcases this with rfl | rfl <;> simp [sampleFetchA])
    (fun _ => by simp [sampleFetchA])
  refine ⟨?_, ?_⟩
  · rw [h.1]; rfl
  · rw [h.2.1]; rfl

/-- C4: pagination always performs at most 5 fetches (the configured
`maximum_page` bound); it stops after `N` yielded pages when pages `1..N`
are non-empty and page `N+1` is empty, even when the configured bound is
larger; and when no page is ever empty it yields exactly 5 pages using
exactly 5 fetches. -/
theorem C4_pagination_bounded {α : Type} (fetch : ℕ → List α) :
    fetchCount fetch 5 ≤ 5 ∧
    (∀ N bound : ℕ, N < bound → (∀ i, 1 ≤ i → i ≤ N → fetch i ≠ []) →
      fetch (N + 1) = [] → (paginate fetch bound).length = N) ∧
    ((∀ i, 1 ≤ i → fetch i ≠ []) →
      (paginate fetch 5).length = 5 ∧ fetchCount fetch 5 = 5) := by
  refine ⟨paginateFrom_count_le fetch 5 1, ?_, ?_⟩
  · intro N bound hNb hne hstop
    have hmain := paginateFrom_yield fetch N bound 1 (le_of_lt hNb)
      (fun i h1 h2 => hne i h1 (by omega))
      (fun _ => by
        have e : 1 + N = N + 1 := by omega
        rw [e]; exact hstop)
    simp [paginate, hmain]
  · intro hne
    constructor
    · have hmain := paginateFrom_yield fetch 5 5 1 le_rfl
        (fun i h1 _ => hne i h1)
        (fun hcontra => absurd hcontra (lt_irrefl 5))
      simp [paginate, hmain]
    · exact paginateFrom_count_all fetch 5 1 hne

/-- C4 witness: the theorem applied to a concrete truncated stream and a
concrete never-empty stream. -/
theorem C4_witness :
    fetchCount sampleFetchA 5 ≤ 5 ∧
    (paginate sampleFetchA 5).length = 2 ∧
    (paginate sampleFetchB 5).length = 5 ∧
    fetchCount sampleFetchB 5 = 5 :=
  ⟨(C4_pagination_bounded sampleFetchA).1,
   (C4_pagination_bounded sampleFetchA).2.1 2 5 (by omega)
     (fun i h1 h2 => by
       have : i = 1 ∨ i = 2 := by omega
       rcases this with rfl | rfl <;> simp [sampleFetchA])
     (by simp [sampleFetchA]),
   ((C4_pagination_bounded sampleFetchB).2.2 (fun i _ => by simp [sampleFetchB])).1,
   ((C4_pagination_bounded sampleFetchB).2.2 (fun i _ => by simp [sampleFetchB])).2⟩

/-! ## Execution lemmas for the monadic layer -/

theorem pyBind_eq {α β : Type} (m : PyM α) (f : α → PyM β) : m >>= f = pyBind m f := rfl

theorem pyPure_eq {α : Type} (a : α) : (pure a : PyM α) = pyPure a := rfl

theorem workersOf_tuned (env : List (String × String)) :
    workersOf (("LOAD__WORKERS", "2") :: ("NORMALIZE__WORKERS", "2") ::
               ("EXTRACT__WORKERS", "2") :: env) = ⟨some "2", some "2", some "2"⟩ := by
  simp [workersOf, envGet]

theorem run_naive_ok (u : String) (c r : ℚ) (li : LoadInfo) (s : St) :
    run_naive_pipeline u c ⟨r, .ok li⟩ s =
      (.ok (li, c + r),
       { now := s.now + c + r, env := s.env,
         log := s.log ++ [Ev.runtimeCall .naive (workersOf s.env), Ev.runEnd .naive,
                          Ev.out (Msg.completedIn "run_naive_pipeline" (c + r))] }) := by
  have e : s.now + c + r - s.now = c + r := by ring
  have raw : run_naive_pipeline u c ⟨r, .ok li⟩ s =
      (.ok (li, s.now + c + r - s.now),
       { now := s.now + c + r, env := s.env,
         log := ((s.log ++ [Ev.runtimeCall .naive (workersOf s.env)]) ++ [Ev.runEnd .naive]) ++
                [Ev.out (Msg.completedIn "run_naive_pipeline" (s.now + c + r - s.now))] }) := rfl
  rw [raw, e]
  simp

theorem run_optimized_ok (u : String) (c r : ℚ) (li : LoadInfo) (s : St) :
    run_optimized_pipeline u c ⟨r, .ok li⟩ s =
      (.ok (li, c + r),
       { now := s.now + c + r,
         env := ("LOAD__WORKERS", "2") :: ("NORMALIZE__WORKERS", "2") ::
                ("EXTRACT__WORKERS", "2") :: s.env,
         log := s.log ++ [Ev.envSet "EXTRACT__WORKERS" "2",
                          Ev.envSet "NORMALIZE__WORKERS" "2",
                          Ev.envSet "LOAD__WORKERS" "2",
                          Ev.runtimeCall .optimized ⟨some "2", some "2", some "2"⟩,
                          Ev.runEnd .optimized,
                          Ev.out (Msg.completedIn "run_optimized_pipeline" (c + r))] }) := by
  have e : s.now + c + r - s.now = c + r := by ring
  have raw : run_optimized_pipeline u c ⟨r, .ok li⟩ s =
      (.ok (li, s.now + c + r - s.now),
       { now := s.now + c + r,
         env := ("LOAD__WORKERS", "2") :: ("NORMALIZE__WORKERS", "2") ::
                ("EXTRACT__WORKERS", "2") :: s.env,
         log := (((((s.log ++ [Ev.envSet "EXTRACT__WORKERS" "2"]) ++
                    [Ev.envSet "NORMALIZE__WORKERS" "2"]) ++
                   [Ev.envSet "LOAD__WORKERS" "2"]) ++
                  [Ev.runtimeCall .optimized
                    (workersOf (("LOAD__WORKERS", "2") :: ("NORMALIZE__WORKERS", "2") ::
                                ("EXTRACT__WORKERS", "2") :: s.env))]) ++
                 [Ev.runEnd .optimized]) ++
                [Ev.out (Msg.completedIn "run_optimized_pipeline" (s.now + c + r - s.now))] }) := rfl
  rw [raw, e, workersOf_tuned]
  simp

theorem run_naive_err (u : String) (c d : ℚ) (e : PyErr) (s : St) :
    run_naive_pipeline u c ⟨d, .error e⟩ s =
      (.error e, { now := s.now + c + d, env := s.env,
                   log := s.log ++ [Ev.runtimeCall .naive (workersOf s.env)] }) := rfl

theorem run_optimized_err (u : String) (c d : ℚ) (e : PyErr) (s : St) :
    run_optimized_pipeline u c ⟨d, .error e⟩ s =
      (.error e,
       { now := s.now + c + d,
         env := ("LOAD__WORKERS", "2") :: ("NORMALIZE__WORKERS", "2") ::
                ("EXTRACT__WORKERS", "2") :: s.env,
         log := s.log ++ [Ev.envSet "EXTRACT__WORKERS" "2",
                          Ev.envSet "NORMALIZE__WORKERS" "2",
                          Ev.envSet "LOAD__WORKERS" "2",
                          Ev.runtimeCall .optimized ⟨some "2", some "2", some "2"⟩] }) := by
  have raw : run_optimized_pipeline u c ⟨d, .error e⟩ s =
      (.error e,
       { now := s.now + c + d,
         env := ("LOAD__WORKERS", "2") :: ("NORMALIZE__WORKERS", "2") ::
                ("EXTRACT__WORKERS", "2") :: s.env,
         log := (((s.log ++ [Ev.envSet "EXTRACT__WORKERS" "2"]) ++
                  [Ev.envSet "NORMALIZE__WORKERS" "2"]) ++
                 [Ev.envSet "LOAD__WORKERS" "2"]) ++
                [Ev.runtimeCall .optimized
                  (workersOf (("LOAD__WORKERS", "2") :: ("NORMALIZE__WORKERS", "2") ::
                              ("EXTRACT__WORKERS", "2") :: s.env))] }) := rfl
  rw [raw, workersOf_tuned]
  simp

theorem main_ok (uN uO tn : String) (cN cO rN rO : ℚ) (liN liO : LoadInfo)
    (ac : ℕ) (s : St) (h : cN + rN ≠ 0) :
    main uN uO cN cO ⟨rN, .ok liN⟩ ⟨rO, .ok liO⟩ tn ac s =
      (.ok (), { now := s.now + cN + rN + cO + rO,
                 env := ("LOAD__WORKERS", "2") :: ("NORMALIZE__WORKERS", "2") ::
                        ("EXTRACT__WORKERS", "2") :: s.env,
                 log := s.log ++ mainOkLog (workersOf s.env) (cN + rN) (cO + rO) tn ac }) := by
  simp only [main, pyBind_eq, pyPure_eq, pyBind, pyPure, printLn, liftE, liftE]
  rw [run_naive_ok]
  simp only []
  rw [run_optimized_ok]
  simp only [pyDiv, if_neg h, mainOkLog]
  simp [List.append_assoc]

theorem main_div0 (uN uO tn : String) (cN cO rN rO : ℚ) (liN liO : LoadInfo)
    (ac : ℕ) (s : St) (h : cN + rN = 0) :
    main uN uO cN cO ⟨rN, .ok liN⟩ ⟨rO, .ok liO⟩ tn ac s =
      (.error PyErr.zeroDivisionError,
       { now := s.now + cN + rN + cO + rO,
         env := ("LOAD__WORKERS", "2") :: ("NORMALIZE__WORKERS", "2") ::
                ("EXTRACT__WORKERS", "2") :: s.env,
         log := s.log ++ (mainOkLog (workersOf s.env) (cN + rN) (cO + rO) tn ac).take 11 }) := by
  simp only [main, pyBind_eq, pyPure_eq, pyBind, pyPure, printLn, liftE]
  rw [run_naive_ok]
  simp only []
  rw [run_optimized_ok]
  simp only [pyDiv, if_pos h, mainOkLog]
  simp [List.append_assoc]

/-! ## Claim theorems -/

/-- C1 (code bug in `main`, line 159): when the naive elapsed time is zero
the comparison `(naive_time - optimized_time) / naive_time * 100` is not
guarded, so `main` raises `ZeroDivisionError` and never prints an
improvement figure; the specified defined "undefined / N-A" report does
not happen. -/
theorem C1_division_by_zero_not_guarded :
    (main "a" "b" 0 1 ⟨0, .ok ⟨1⟩⟩ ⟨4, .ok ⟨2⟩⟩ "MainThread" 1 st0).1 =
      .error PyErr.zeroDivisionError ∧
    ∀ p : ℚ, Ev.out (Msg.improvementPct p) ∉
      (main "a" "b" 0 1 ⟨0, .ok ⟨1⟩⟩ ⟨4, .ok ⟨2⟩⟩ "MainThread" 1 st0).2.log := by
  rw [main_div0 "a" "b" "MainThread" 0 1 0 4 ⟨1⟩ ⟨2⟩ 1 st0 (by norm_num)]
  refine ⟨rfl, ?_⟩
  intro p
  simp [mainOkLog, st0]

/-- C2 (amended): the elapsed time reported by the `@time_execution`
decorator covers the whole decorated run function, so it equals
configuration-construction time plus runtime-call time; construction time
is included, not excluded. -/
theorem C2_elapsed_includes_construction (u : String) (c r : ℚ) (li : LoadInfo) (s : St) :
    (run_naive_pipeline u c ⟨r, .ok li⟩ s).1 = .ok (li, c + r) ∧
    (run_optimized_pipeline u c ⟨r, .ok li⟩ s).1 = .ok (li, c + r) := by
  rw [run_naive_ok, run_optimized_ok]
  exact ⟨rfl, rfl⟩

/-- C2 counterexample: with construction cost 1 and runtime-call cost 2
the reported elapsed time is 3, not the runtime-only 2 the claim
predicts. -/
theorem C2_counterexample :
    ¬ ((run_naive_pipeline "a" 1 ⟨2, .ok ⟨7⟩⟩ st0).1 = .ok (⟨7⟩, 2)) := by
  rw [run_naive_ok]
  norm_num

/-- C5: a failure raised by the external runtime propagates out of the run
functions unmodified — the timing wrapper catches nothing — and no
`(result, elapsed)` pair is produced; the trace records the runtime call
but no completion. -/
theorem C5_runtime_failure_propagates (u : String) (c : ℚ) (beh : RuntimeBehavior)
    (e : PyErr) (s : St) (h : beh.outcome = .error e) :
    (run_naive_pipeline u c beh s).1 = .error e ∧
    (run_optimized_pipeline u c beh s).1 = .error e ∧
    (run_naive_pipeline u c beh s).2.log =
      s.log ++ [Ev.runtimeCall .naive (workersOf s.env)] ∧
    ∀ li : LoadInfo, ∀ t : ℚ, (run_naive_pipeline u c beh s).1 ≠ .ok (li, t) := by
  obtain ⟨d, o⟩ := beh
  cases o with
  | ok li => simp at h
  | error e2 =>
    have he : e2 = e := by simpa using h
    subst he
    rw [run_naive_err, run_optimized_err]
    refine ⟨rfl, rfl, rfl, ?_⟩
    intro li t hcontra
    simp at hcontra

/-- C5 witness: a concrete runtime failure surfaces unchanged from both
run functions. -/
theorem C5_witness :
    (run_naive_pipeline "a" 1 ⟨2, .error (PyErr.runtimeError .naive)⟩ st0).1 =
      .error (PyErr.runtimeError .naive) ∧
    (run_optimized_pipeline "a" 1 ⟨2, .error (PyErr.runtimeError .naive)⟩ st0).1 =
      .error (PyErr.runtimeError .naive) :=
  ⟨(C5_runtime_failure_propagates "a" 1 ⟨2, .error (PyErr.runtimeError .naive)⟩
      (PyErr.runtimeError .naive) st0 rfl).1,
   (C5_runtime_failure_propagates "a" 1 ⟨2, .error (PyErr.runtimeError .naive)⟩
      (PyErr.runtimeError .naive) st0 rfl).2.1⟩

/-- C6 counterexample: dataset names are built from the first 8 characters
of the drawn UUID string, so a draw sequence whose 8-character prefixes
collide (possible under `uuid.uuid4()`) produces equal dataset namespaces
within 1,000 constructions — the claim's unconditional distinctness fails. -/
theorem C6_counterexample :
    ¬ (∀ draws : ℕ → String, ∀ i j : ℕ, i < 1000 → j < 1000 → i ≠ j →
        (create_naive_pipeline (draws i)).dataset_name ≠
          (create_naive_pipeline (draws j)).dataset_name) := by
  intro hcl
  exact hcl (fun n => if n = 0 then "aaaaaaaa-0000" else "aaaaaaaa-1111")
    0 1 (by norm_num) (by norm_num) (by norm_num) (by decide)

/-- C6 (amended): two benchmark constructions produce distinct dataset
namespaces whenever the 8-character UUID prefixes they draw differ; the
name construction is injective in the prefix, but `uuid.uuid4()` does not
guarantee 1,000 consecutive prefixes are pairwise distinct. -/
theorem C6_distinct_prefixes_distinct_datasets (a b : String)
    (h : a.take 8 ≠ b.take 8) :
    (create_naive_pipeline a).dataset_name ≠ (create_naive_pipeline b).dataset_name ∧
    (create_optimized_pipeline a).1.dataset_name ≠
      (create_optimized_pipeline b).1.dataset_name := by
  have key : ∀ p x y : String, x ≠ y → p ++ x ≠ p ++ y := by
    intro p x y hxy hc
    have hd : x.data = y.data := by
      simpa [String.data_append] using congrArg String.data hc
    exact hxy (String.ext hd)
  exact ⟨key "jaffle_naive_" (a.take 8) (b.take 8) h,
         key "jaffle_optimized_" (a.take 8) (b.take 8) h⟩

/-- C6 witness: two concrete UUID draws with different 8-character
prefixes give distinct dataset namespaces for both variants. -/
theorem C6_witness :
    (create_naive_pipeline "aaaaaaaa-0000").dataset_name ≠
      (create_naive_pipeline "bbbbbbbb-0000").dataset_name ∧
    (create_optimized_pipeline "aaaaaaaa-0000").1.dataset_name ≠
      (create_optimized_pipeline "bbbbbbbb-0000").1.dataset_name :=
  C6_distinct_prefixes_distinct_datasets "aaaaaaaa-0000" "bbbbbbbb-0000" (by decide)

/-- C7: for every pair of elapsed times with nonzero naive time, `main`
prints the improvement `(naive_time - optimized_time) / naive_time * 100`
(elapsed times being construction cost plus runtime cost for each run). -/
theorem C7_improvement_formula (uN uO tn : String) (cN cO rN rO : ℚ)
    (liN liO : LoadInfo) (ac : ℕ) (s : St) (h : cN + rN ≠ 0) :
    Ev.out (Msg.improvementPct ((cN + rN - (cO + rO)) / (cN + rN) * 100)) ∈
      (main uN uO cN cO ⟨rN, .ok liN⟩ ⟨rO, .ok liO⟩ tn ac s).2.log := by
  rw [main_ok uN uO tn cN cO rN rO liN liO ac s h]
  simp [mainOkLog]

/-- C7 witness: naive elapsed 10 (6 + 4) and optimized elapsed 4 (1 + 3)
give a printed improvement of exactly 60. -/
theorem C7_witness :
    Ev.out (Msg.improvementPct 60) ∈
      (main "a" "b" 6 1 ⟨4, .ok ⟨1⟩⟩ ⟨3, .ok ⟨2⟩⟩ "MainThread" 1 st0).2.log := by
  have hh := C7_improvement_formula "a" "b" "MainThread" 6 1 4 3 ⟨1⟩ ⟨2⟩ 1 st0 (by norm_num)
  have e : ((6 : ℚ) + 4 - (1 + 3)) / (6 + 4) * 100 = 60 := by norm_num
  rwa [e] at hh

/-- C8: in every successful execution of `main`, the naive run completes
(its `runEnd` event occurs) strictly before the optimized runtime call
starts; no optimized runtime call precedes it and no naive runtime call
follows it. -/
theorem C8_naive_completes_before_optimized (uN uO tn : String) (cN cO rN rO : ℚ)
    (liN liO : LoadInfo) (ac : ℕ) (s : St) (h : cN + rN ≠ 0) :
    ∃ pre post : List Ev,
      (main uN uO cN cO ⟨rN, .ok liN⟩ ⟨rO, .ok liO⟩ tn ac s).2.log =
        s.log ++ pre ++ [Ev.runtimeCall .optimized ⟨some "2", some "2", some "2"⟩] ++ post ∧
      Ev.runtimeCall .naive (workersOf s.env) ∈ pre ∧
      Ev.runEnd .naive ∈ pre ∧
      (∀ w : WorkerEnv, Ev.runtimeCall .optimized w ∉ pre) ∧
      (∀ w : WorkerEnv, Ev.runtimeCall .naive w ∉ post) := by
  rw [main_ok uN uO tn cN cO rN rO liN liO ac s h]
  refine ⟨[Ev.out (Msg.text "Running naive pipeline..."),
           Ev.runtimeCall .naive (workersOf s.env),
           Ev.runEnd .naive,
           Ev.out (Msg.completedIn "run_naive_pipeline" (cN + rN)),
           Ev.out (Msg.text "\nRunning optimized pipeline..."),
           Ev.envSet "EXTRACT__WORKERS" "2",
           Ev.envSet "NORMALIZE__WORKERS" "2",
           Ev.envSet "LOAD__WORKERS" "2"],
          [Ev.runEnd .optimized,
           Ev.out (Msg.completedIn "run_optimized_pipeline" (cO + rO)),
           Ev.out (Msg.text "\n========== PERFORMANCE RESULTS =========="),
           Ev.out (Msg.naiveSeconds (cN + rN)),
           Ev.out (Msg.optimizedSeconds (cO + rO)),
           Ev.out (Msg.improvementPct ((cN + rN - (cO + rO)) / (cN + rN) * 100)),
           Ev.out (Msg.text "\n========== THREAD INFORMATION =========="),
           Ev.out (Msg.currentThread tn),
           Ev.out (Msg.activeThreadCount ac),
           Ev.out (Msg.text "\n========== OPTIMIZATION DETAILS =========="),
           Ev.out (Msg.text "Key optimizations applied:"),
           Ev.out (Msg.text "1. Chunking: Yielding entire pages instead of individual items"),
           Ev.out (Msg.text parallelismLine),
           Ev.out (Msg.text "3. Buffer Control: Increasing buffer_max_items to 10000"),
           Ev.out (Msg.text "4. File Rotation: Setting file_rotation_size_mb to 100"),
           Ev.out (Msg.text "5. Worker Tuning: Setting EXTRACT__WORKERS, NORMALIZE__WORKERS, and LOAD__WORKERS to 2"),
           Ev.out (Msg.text "6. Source Grouping: Grouping resources into a source for better orchestration")],
          ?_, by simp, by simp, ?_, ?_⟩
  · simp [mainOkLog]
  · intro w
    simp
  · intro w
    simp

/-- C8 witness: the ordering property at concrete costs and outcomes. -/
theorem C8_witness :
    ∃ pre post : List Ev,
      (main "a" "b" 1 1 ⟨2, .ok ⟨1⟩⟩ ⟨1, .ok ⟨2⟩⟩ "MainThread" 1 st0).2.log =
        st0.log ++ pre ++ [Ev.runtimeCall .optimized ⟨some "2", some "2", some "2"⟩] ++ post ∧
      Ev.runtimeCall .naive (workersOf st0.env) ∈ pre ∧
      Ev.runEnd .naive ∈ pre ∧
      (∀ w : WorkerEnv, Ev.runtimeCall .optimized w ∉ pre) ∧
      (∀ w : WorkerEnv, Ev.runtimeCall .naive w ∉ post) :=
  C8_naive_completes_before_optimized "a" "b" "MainThread" 1 1 2 1 ⟨1⟩ ⟨2⟩ 1 st0 (by norm_num)

/-- C9: the optimized configuration sets `parallelized` to `False` while
the worker environment variables are set to "2", yet the optimization
summary printed by `main` (source line 176) contains the text
"parallelized=True" — the printed listing does not match the actual
configuration. -/
theorem C9_parallelized_flag_mismatch (uN uO tn : String) (cN cO rN rO : ℚ)
    (liN liO : LoadInfo) (ac : ℕ) (s : St) (h : cN + rN ≠ 0) :
    optimized_run_settings.execution_parallelized = false ∧
    (create_optimized_pipeline uO).2.execution_parallelized = false ∧
    envGet (create_optimized_pipelineM uO cO s).2.env "EXTRACT__WORKERS" = some "2" ∧
    envGet (create_optimized_pipelineM uO cO s).2.env "NORMALIZE__WORKERS" = some "2" ∧
    envGet (create_optimized_pipelineM uO cO s).2.env "LOAD__WORKERS" = some "2" ∧
    strHasSub "parallelized=True".data parallelismLine.data = true ∧
    Ev.out (Msg.text parallelismLine) ∈
      (main uN uO cN cO ⟨rN, .ok liN⟩ ⟨rO, .ok liO⟩ tn ac s).2.log ∧
    optimized_run_settings.execution_parallelized ≠ true := by
  refine ⟨rfl, rfl,
          by simp [create_optimized_pipelineM, pyBind_eq, pyBind, osEnvironSet, envGet],
          by simp [create_optimized_pipelineM, pyBind_eq, pyBind, osEnvironSet, envGet],
          by simp [create_optimized_pipelineM, pyBind_eq, pyBind, osEnvironSet, envGet],
          by decide, ?_, by decide⟩
  rw [main_ok uN uO tn cN cO rN rO liN liO ac s h]
  simp [mainOkLog]

/-- C9 witness: the mismatch at concrete inputs. -/
theorem C9_witness :
    optimized_run_settings.execution_parallelized = false ∧
    strHasSub "parallelized=True".data parallelismLine.data = true ∧
    Ev.out (Msg.text parallelismLine) ∈
      (main "a" "b" 1 1 ⟨2, .ok ⟨1⟩⟩ ⟨1, .ok ⟨2⟩⟩ "MainThread" 1 st0).2.log :=
  ⟨(C9_parallelized_flag_mismatch "a" "b" "MainThread" 1 1 2 1 ⟨1⟩ ⟨2⟩ 1 st0 (by norm_num)).1,
   (C9_parallelized_flag_mismatch "a" "b" "MainThread" 1 1 2 1 ⟨1⟩ ⟨2⟩ 1 st0 (by norm_num)).2.2.2.2.2.1,
   (C9_parallelized_flag_mismatch "a" "b" "MainThread" 1 1 2 1 ⟨1⟩ ⟨2⟩ 1 st0 (by norm_num)).2.2.2.2.2.2.1⟩

/-- C10: constructing the optimized configuration mutates the process
environment (`EXTRACT__WORKERS`, `NORMALIZE__WORKERS`, `LOAD__WORKERS`
set to "2") and never restores it: starting from an environment without
these variables, the naive runtime call still observes them unset (the
mutation happens strictly after the naive run completes), the optimized
runtime call observes all three set to "2", and they remain set to "2" in
the final state of `main`. -/
theorem C10_env_mutation_persists (uN uO tn : String) (cN cO rN rO t0 : ℚ)
    (liN liO : LoadInfo) (ac : ℕ) (e0 : List (String × String)) (h : cN + rN ≠ 0)
    (hE : envGet e0 "EXTRACT__WORKERS" = none)
    (hNm : envGet e0 "NORMALIZE__WORKERS" = none)
    (hL : envGet e0 "LOAD__WORKERS" = none) :
    envGet (main uN uO cN cO ⟨rN, .ok liN⟩ ⟨rO, .ok liO⟩ tn ac ⟨t0, e0, []⟩).2.env
      "EXTRACT__WORKERS" = some "2" ∧
    envGet (main uN uO cN cO ⟨rN, .ok liN⟩ ⟨rO, .ok liO⟩ tn ac ⟨t0, e0, []⟩).2.env
      "NORMALIZE__WORKERS" = some "2" ∧
    envGet (main uN uO cN cO ⟨rN, .ok liN⟩ ⟨rO, .ok liO⟩ tn ac ⟨t0, e0, []⟩).2.env
      "LOAD__WORKERS" = some "2" ∧
    Ev.runtimeCall .naive ⟨none, none, none⟩ ∈
      (main uN uO cN cO ⟨rN, .ok liN⟩ ⟨rO, .ok liO⟩ tn ac ⟨t0, e0, []⟩).2.log ∧
    Ev.runtimeCall .optimized ⟨some "2", some "2", some "2"⟩ ∈
      (main uN uO cN cO ⟨rN, .ok liN⟩ ⟨rO, .ok liO⟩ tn ac ⟨t0, e0, []⟩).2.log ∧
    ∃ pre post : List Ev,
      (main uN uO cN cO ⟨rN, .ok liN⟩ ⟨rO, .ok liO⟩ tn ac ⟨t0, e0, []⟩).2.log =
        pre ++ Ev.envSet "EXTRACT__WORKERS" "2" :: post ∧
      Ev.runEnd .naive ∈ pre ∧
      ∀ n v : String, Ev.envSet n v ∉ pre := by
  have hw : workersOf e0 = ⟨none, none, none⟩ := by simp [workersOf, hE, hNm, hL]
  rw [main_ok uN uO tn cN cO rN rO liN liO ac ⟨t0, e0, []⟩ h]
  refine ⟨by simp [envGet], by simp [envGet], by simp [envGet],
          by simp [mainOkLog, hw], by simp [mainOkLog], ?_⟩
  refine ⟨[Ev.out (Msg.text "Running naive pipeline..."),
           Ev.runtimeCall .naive ⟨none, none, none⟩,
           Ev.runEnd .naive,
           Ev.out (Msg.completedIn "run_naive_pipeline" (cN + rN)),
           Ev.out (Msg.text "\nRunning optimized pipeline...")],
          (mainOkLog (workersOf e0) (cN + rN) (cO + rO) tn ac).drop 6,
          ?_, by simp, ?_⟩
  · simp [mainOkLog, hw]
  · intro n v
    simp

/-- C10 witness: the mutation scope at concrete inputs starting from an
empty environment. -/
theorem C10_witness :
    envGet (main "a" "b" 1 1 ⟨2, .ok ⟨1⟩⟩ ⟨1, .ok ⟨2⟩⟩ "MainThread" 1 ⟨0, [], []⟩).2.env
      "EXTRACT__WORKERS" = some "2" ∧
    envGet (main "a" "b" 1 1 ⟨2, .ok ⟨1⟩⟩ ⟨1, .ok ⟨2⟩⟩ "MainThread" 1 ⟨0, [], []⟩).2.env
      "NORMALIZE__WORKERS" = some "2" ∧
    envGet (main "a" "b" 1 1 ⟨2, .ok ⟨1⟩⟩ ⟨1, .ok ⟨2⟩⟩ "MainThread" 1 ⟨0, [], []⟩).2.env
      "LOAD__WORKERS" = some "2" ∧
    Ev.runtimeCall .naive ⟨none, none, none⟩ ∈
      (main "a" "b" 1 1 ⟨2, .ok ⟨1⟩⟩ ⟨1, .ok ⟨2⟩⟩ "MainThread" 1 ⟨0, [], []⟩).2.log ∧
    Ev.runtimeCall .optimized ⟨some "2", some "2", some "2"⟩ ∈
      (main "a" "b" 1 1 ⟨2, .ok ⟨1⟩⟩ ⟨1, .ok ⟨2⟩⟩ "MainThread" 1 ⟨0, [], []⟩).2.log ∧
    ∃ pre post : List Ev,
      (main "a" "b" 1 1 ⟨2, .ok ⟨1⟩⟩ ⟨1, .ok ⟨2⟩⟩ "MainThread" 1 ⟨0, [], []⟩).2.log =
        pre ++ Ev.envSet "EXTRACT__WORKERS" "2" :: post ∧
      Ev.runEnd .naive ∈ pre ∧
      ∀ n v : String, Ev.envSet n v ∉ pre :=
  C10_env_mutation_persists "a" "b" "MainThread" 1 1 2 1 0 ⟨1⟩ ⟨2⟩ 1 []
    (by norm_num) rfl rfl rfl

end JaffleShop
